import Mathlib

/-
Shallow embedding of gecode/support/shared-array.hh (SAO<T> / SharedArray<T>)
and of the serialization registry/deserializer interface
(gecode/serialization.hh), together with proofs settling the specification
claims about them.

Modelling conventions:
* `T*` element storage is a `List (Option T)`; a `none` slot is allocated but
  holds no constructed element (malloc without placement new).  A NULL storage
  pointer and a zero-byte allocation are both the empty list: no claim
  observes the difference.
* the C++ `int` length field is `Int`; the `unsigned int` reference count is
  `Nat` (no claim scenario approaches the 2^32 wrap).
* heap objects (`SAO<T>` instances) live in an explicit heap, a list of
  cells indexed by address; `delete` marks the cell freed.  Operations whose
  C++ counterpart dereferences a dangling or NULL pointer return `none`
  (undefined behaviour), so every modelled operation is total and the model
  is defined exactly where the source is.
-/

namespace Gecode

/-- State of one `SAO<T>` object (shared-array.hh lines 33-59): reference
count `use` (unsigned int), element storage `a` (slot `none` = allocated but
unconstructed), stored length metadata `n` (int).  `n` is kept separate from
`a.length` because `SharedArray<T>::size(int)` overwrites `n` without touching
the storage. -/
structure SAOData (T : Type) where
  use : Nat
  a : List (Option T)
  n : Int
  deriving DecidableEq

/-- Embedding of the constructor `SAO<T>::SAO(int n0)` (lines 106-110):
`use(1)`, `n(n0)`, and storage of `n0` unconstructed slots when `n0 > 0`,
NULL otherwise (`Int.toNat` sends a nonpositive count to the empty list). -/
def SAOData.mkSAO (T : Type) (n0 : Int) : SAOData T :=
  { use := 1, a := List.replicate n0.toNat none, n := n0 }

/-- Embedding of `SAO<T>::copy` (lines 112-119): a fresh object of the same
length `n` with `use = 1`, whose slot `i` is placement-constructed as a copy
of slot `i` of the source for every `i < n`. -/
def SAOData.copyFn {T : Type} (d : SAOData T) : SAOData T :=
  { use := 1
    a := (List.range d.n.toNat).map (fun i => d.a.getD i none)
    n := d.n }

/-- Embedding of `SAO<T>::shrink(int m)` (lines 144-160).  Fresh storage of
`m` slots (NULL when `m ≤ 0`) receives placement-constructed copies of the
first `m` slots; the old storage is then handed to `Memory::free` when
`n > 0`, and `n := m`.  The second component lists the slots on which the
body invokes an element destructor: the body contains no `~T()` call (it only
copies, frees and reassigns), so that list is empty — contrast with
`SAOData.destroyRun`, the embedding of `~SAO`, which destructs every
element before freeing. -/
def SAOData.shrinkRun {T : Type} (d : SAOData T) (m : Int) :
    SAOData T × List (Option T) :=
  ({ use := d.use
     a := (List.range m.toNat).map (fun i => d.a.getD i none)
     n := m }, [])

/-- Embedding of `SAO<T>::ensure(int i)` (lines 162-174): when `i ≥ n`, fresh
storage of `m = max(2*n, i)` slots receives placement-constructed copies of
the first `n` slots (slots `n ≤ j < m` stay unconstructed), the old storage
is freed when `n > 0` (again with no destructor call, see the second
component), and `n := m`; when `i < n` nothing happens. -/
def SAOData.ensureRun {T : Type} (d : SAOData T) (i : Int) :
    SAOData T × List (Option T) :=
  if d.n ≤ i then
    ({ use := d.use
       a := (List.range (max (2 * d.n) i).toNat).map
              (fun (j : Nat) => if (j : Int) < d.n then d.a.getD j none else none)
       n := max (2 * d.n) i }, [])
  else (d, [])

/-- Embedding of the destructor `SAO<T>::~SAO` (lines 121-129): when `n > 0`
it invokes `a[i].~T()` for `i = n-1` down to `0` and then frees the storage.
The result lists the destructed slots in invocation order. -/
def SAOData.destroyRun {T : Type} (d : SAOData T) : List (Option T) :=
  (List.range d.n.toNat).reverse.map (fun i => d.a.getD i none)

/-- Heap cell: a live `SAO<T>` object, or one whose `delete this` already
ran. -/
inductive Cell (T : Type) where
  | live (d : SAOData T)
  | freed
  deriving DecidableEq

/-- Heap of `SAO<T>` objects; the address of an object is its index. -/
structure Heap (T : Type) where
  cells : List (Cell T)
  deriving DecidableEq

/-- Object state carried by a cell: the data when it is live, `none` when
its `delete this` already ran. -/
def Cell.val {T : Type} : Cell T → Option (SAOData T)
  | Cell.live d => some d
  | Cell.freed => none

/-- Dereference a pointer: the object's state when the cell is live, `none`
when the pointer is dangling (freed cell) or wild (out of range). -/
def Heap.get {T : Type} (h : Heap T) (p : Nat) : Option (SAOData T) :=
  h.cells[p]?.bind Cell.val

/-- Overwrite the cell at address `p`. -/
def Heap.set {T : Type} (h : Heap T) (p : Nat) (c : Cell T) : Heap T :=
  { cells := h.cells.set p c }

/-- Allocate a fresh object (`new SAO<T>(...)`): appended at the end of the
heap, its address is the old heap length. -/
def Heap.alloc {T : Type} (h : Heap T) (d : SAOData T) : Heap T × Nat :=
  ({ cells := h.cells ++ [Cell.live d] }, h.cells.length)

/-- Embedding of `SAO<T>::subscribe` (lines 131-135): `use++`.  Undefined
(`none`) on a dangling pointer. -/
def Heap.subscribeH {T : Type} (h : Heap T) (p : Nat) : Option (Heap T) :=
  (h.get p).map (fun d => h.set p (Cell.live { d with use := d.use + 1 }))

/-- Embedding of `SAO<T>::release` (lines 137-142): `if (--use == 0) delete
this`.  The decrement-hits-zero test `d.use - 1 = 0` agrees with the unsigned
`--use == 0` for every reachable count (`use ≥ 1`; release is never invoked
on a dead object).  Undefined (`none`) on a dangling pointer. -/
def Heap.releaseH {T : Type} (h : Heap T) (p : Nat) : Option (Heap T) :=
  (h.get p).map (fun d =>
    if d.use - 1 = 0 then h.set p Cell.freed
    else h.set p (Cell.live { d with use := d.use - 1 }))

/-- A `SharedArray<T>` handle is its `sao` pointer; `none` is NULL. -/
abbrev Handle := Option Nat

/-- Embedding of `SharedArray<T>::SharedArray(int n)` (lines 177-179):
allocate a fresh `SAO<T>(n)` and point at it. -/
def mkSharedArray {T : Type} (h : Heap T) (n : Int) : Heap T × Handle :=
  let r := h.alloc (SAOData.mkSAO T n)
  (r.1, some r.2)

/-- Embedding of the copy constructor `SharedArray<T>::SharedArray(const
SharedArray&)` (lines 181-187): adopt the source pointer and subscribe when
it is non-NULL. -/
def copyCtor {T : Type} (h : Heap T) (a : Handle) : Option (Heap T × Handle) :=
  match a with
  | none => some (h, none)
  | some p => (h.subscribeH p).map (fun h1 => (h1, some p))

/-- Embedding of the destructor `SharedArray<T>::~SharedArray` (lines
189-194): release the object when the pointer is non-NULL. -/
def destructHandle {T : Type} (h : Heap T) (x : Handle) : Option (Heap T) :=
  match x with
  | none => some h
  | some p => h.releaseH p

/-- Embedding of `SharedArray<T>::operator=` (lines 196-207).  The flag
`self` models the address test `this != &a`: when the left-hand side and the
source are the same object the whole body is skipped; otherwise the old
buffer is released, the source pointer adopted, and subscribed when
non-NULL. -/
def assign {T : Type} (h : Heap T) (lhs rhs : Handle) (self : Bool) :
    Option (Heap T × Handle) :=
  if self then some (h, lhs)
  else
    match (match lhs with | none => some h | some p => h.releaseH p) with
    | none => none
    | some h1 =>
      match rhs with
      | none => some (h1, none)
      | some q => (h1.subscribeH q).map (fun h2 => (h2, some q))

/-- Embedding of `SharedArray<T>::update(Space* home, bool share,
SharedArray& a)` (lines 209-221).  The unused `Space* home` argument is
omitted.  The current buffer is released first (no self test, unlike
`operator=`); then either `a`'s pointer is adopted and subscribed (`share`)
or an independent copy of `a`'s object is allocated. -/
def update {T : Type} (h : Heap T) (this : Handle) (share : Bool)
    (a : Handle) : Option (Heap T × Handle) :=
  match (match this with | none => some h | some p => h.releaseH p) with
  | none => none
  | some h1 =>
    if share then
      match a with
      | none => some (h1, none)
      | some q => (h1.subscribeH q).map (fun h2 => (h2, some q))
    else
      match a with
      | none => some (h1, none)
      | some q =>
        (h1.get q).map (fun d =>
          let r := h1.alloc d.copyFn
          (r.1, some r.2))

/-- Embedding of `SharedArray<T>::size(void)` (lines 235-239):
`(sao == NULL) ? 0 : sao->n`; reading through a dangling pointer is
undefined. -/
def sizeRead {T : Type} (h : Heap T) (x : Handle) : Option Int :=
  match x with
  | none => some 0
  | some p => (h.get p).map (fun d => d.n)

/-- Embedding of the setter `SharedArray<T>::size(int n)` (lines 241-251):
when `n == 0`, release the buffer (if any) and become the NULL handle; when
`n != 0`, `sao->n = n`, which is a NULL dereference (undefined, `none`) on an
empty handle and otherwise overwrites only the stored length metadata. -/
def sizeSet {T : Type} (h : Heap T) (x : Handle) (n : Int) :
    Option (Heap T × Handle) :=
  if n = 0 then
    match x with
    | none => some (h, none)
    | some p => (h.releaseH p).map (fun h1 => (h1, none))
  else
    match x with
    | none => none
    | some p => (h.get p).map (fun d =>
        (h.set p (Cell.live { d with n := n }), some p))

/-- Observable element sequence of a handle: the values `operator[]` (lines
223-233) yields at positions `0 .. size()-1`.  An empty handle reports size
0, so no read occurs and the sequence is empty; reading through a dangling
pointer is undefined. -/
def elemsRead {T : Type} (h : Heap T) (x : Handle) : Option (List (Option T)) :=
  match x with
  | none => some []
  | some p => (h.get p).map
      (fun d => (List.range d.n.toNat).map (fun i => d.a.getD i none))

/-- Embedding of `SharedArray<T>::shrink` (lines 253-257): delegate to the
object when the pointer is non-NULL; undefined on a dangling pointer. -/
def shrinkHandle {T : Type} (h : Heap T) (x : Handle) (m : Int) :
    Option (Heap T) :=
  match x with
  | none => some h
  | some p => (h.get p).map (fun d => h.set p (Cell.live (d.shrinkRun m).1))

/-- Embedding of `SharedArray<T>::ensure` (lines 259-263): delegate to the
object when the pointer is non-NULL; undefined on a dangling pointer. -/
def ensureHandle {T : Type} (h : Heap T) (x : Handle) (i : Int) :
    Option (Heap T) :=
  match x with
  | none => some h
  | some p => (h.get p).map (fun d => h.set p (Cell.live (d.ensureRun i).1))

/-- Iterated `SAO<T>::release` at one address: the effect of destroying `j`
handles that all stake the object at `p`. -/
def releaseN {T : Type} (h : Heap T) (p : Nat) : Nat → Option (Heap T)
  | 0 => some h
  | j + 1 => (h.releaseH p).bind (fun h1 => releaseN h1 p j)

/-- Error taxonomy of the serialization subsystem, modelled from the spec
(section 7). -/
inductive DError where
  | outOfMemory
  | unknownVariableType
  | unknownConstraintKind
  | undefinedVariableReference
  deriving DecidableEq

/-- Live variable handle (`VarBase*`), modelled as an abstract identifier. -/
abbrev VarBase := Int

/-- One posted constraint as recorded in the target state: its kind
identifier, the variables it was posted over, and its parameter payload.
Modelled from the spec (ConstraintSpecification data model and the scenarios
of section 8). -/
structure Constraint where
  kind : String
  over : List VarBase
  payload : List Int
  deriving DecidableEq

/-- Target state (`Space`): the live variables and the posted constraints,
the two observables the spec's scenarios inspect.  Modelled from the spec
(the concrete Space class is not under src/). -/
structure Space where
  vars : List VarBase
  constraints : List Constraint
  deriving DecidableEq

/-- Variable specification (`Reflection::VarSpec`): variable type identifier
plus domain/parameter payload, following the spec's data model. -/
structure VarSpec where
  vti : Int
  payload : List Int
  deriving DecidableEq

/-- Constraint specification (`Reflection::ActorSpec`): constraint kind
identifier, argument indices into the creation-order variable sequence, and
parameter payload, following the spec's data model. -/
structure ActorSpec where
  kind : String
  argIdx : List Int
  payload : List Int
  deriving DecidableEq

/-- Type of variable creation functions `Registry::varCreator` (declaration
lines 357-358): given the target state and a specification, produce the new
variable handle. -/
abbrev VarCreator := Space → VarSpec → VarBase

/-- Type of constraint posting functions `Registry::poster` (declaration
lines 353-355), modelled from the spec: the poster receives the target
state, the full creation-order sequence and the specification, resolves the
argument indices itself, and determines the constraint that is added to the
target state. -/
abbrev Poster := Space → List VarBase → ActorSpec → Constraint

/-- Registry of posting and creation functions (serialization.hh lines
350-380): a map from kind identifiers to posters and a map from variable
type identifiers to creators. -/
structure Registry where
  posters : List (String × Poster)
  varCreators : List (Int × VarCreator)

/-- Modelled from the spec: the body of `Registry::add(int, varCreator)` is
not under src/ (only its declaration, lines 370-371).  Registration is
last-write-wins, which the cons-plus-first-match-lookup representation
realizes. -/
def Registry.addVar (r : Registry) (vti : Int) (vc : VarCreator) : Registry :=
  { r with varCreators := (vti, vc) :: r.varCreators }

/-- Modelled from the spec: the body of `Registry::add(const char*, poster)`
is not under src/ (only its declaration, lines 373-374); last-write-wins as
above. -/
def Registry.addPoster (r : Registry) (id : String) (p : Poster) : Registry :=
  { r with posters := (id, p) :: r.posters }

/-- Modelled from the spec: the body of `Registry::createVar` is not under
src/ (only its declaration, lines 361-362).  Per the spec it looks up the
factory registered for the specification's variable type identifier, fails
with UnknownVariableType when none is registered, and otherwise invokes it
with the target state and the specification, returning its result. -/
def Registry.createVar (r : Registry) (home : Space) (spec : VarSpec) :
    Except DError VarBase :=
  match r.varCreators.lookup spec.vti with
  | none => Except.error DError.unknownVariableType
  | some f => Except.ok (f home spec)

/-- Modelled from the spec: the body of `Registry::post` is not under src/
(only its declaration, lines 365-367).  Per the spec it looks up the poster
for the kind identifier, fails with UnknownConstraintKind when none is
registered, and otherwise invokes it with the target state, the
creation-order sequence and the specification; the constraint the poster
determines is added to the target state. -/
def Registry.postC (r : Registry) (home : Space) (vars : List VarBase)
    (spec : ActorSpec) : Except DError Space :=
  match r.posters.lookup spec.kind with
  | none => Except.error DError.unknownConstraintKind
  | some p =>
    Except.ok { home with constraints := home.constraints ++ [p home vars spec] }

/-- Per-session state of the deserializer (serialization.hh lines 386-393):
the target state `home`, the caller-owned identifier map `m`, and the
creation-order sequence `v` of variables created this session. -/
structure Deserializer where
  home : Space
  m : List (Int × VarBase)
  v : List VarBase

/-- Modelled from the spec: the body of `Deserializer::post` is not under
src/ (only its declaration, lines 407-408).  Per the spec every index in the
specification's argument list must already be a valid position in the
creation-order sequence, and an out-of-range index fails with
UndefinedVariableReference; otherwise the call is delegated to
`Registry::post`.  The function never creates variables. -/
def Deserializer.postA (ds : Deserializer) (r : Registry) (spec : ActorSpec) :
    Except DError Deserializer :=
  if spec.argIdx.all (fun i => decide (0 ≤ i) && decide (i < (ds.v.length : Int))) then
    (r.postC ds.home ds.v spec).map (fun home1 => { ds with home := home1 })
  else
    Except.error DError.undefinedVariableReference

/-- Concrete heap holding one object of one element staked twice, as when
two handles share one buffer. -/
def exAliased : Heap Int := ⟨[Cell.live { use := 2, a := [some 1], n := 1 }]⟩

/-- Concrete heap holding one object of one element with a single stake. -/
def exSole : Heap Int := ⟨[Cell.live { use := 1, a := [some 3], n := 1 }]⟩

/-- Concrete one-element object state used by the shrink counterexample. -/
def exShrink : SAOData Int := { use := 1, a := [some 5], n := 1 }

/-- Concrete three-element object state used by the shrink witness. -/
def exShrinkW : SAOData Int := { use := 2, a := [some 1, some 2, some 3], n := 3 }

/-- Concrete two-element object state used by the ensure witness. -/
def exEnsure : SAOData Int := { use := 1, a := [some 7, some 8], n := 2 }

/-- Concrete object state of the single cell of exSole. -/
def exSoled : SAOData Int := { use := 1, a := [some 3], n := 1 }

/-- Concrete two-object heap: the handle some-0 stakes the first object, the
second object is the update source. -/
def exC1 : Heap Int :=
  ⟨[Cell.live { use := 1, a := [some 7], n := 1 },
    Cell.live { use := 1, a := [some 2, some 4], n := 2 }]⟩

/-- Concrete object state of cell 1 of exC1. -/
def exC1d : SAOData Int := { use := 1, a := [some 2, some 4], n := 2 }

/-- Concrete heap whose single object is staked by three handles. -/
def exC4 : Heap Int := ⟨[Cell.live { use := 3, a := [some 9], n := 1 }]⟩

/-- Concrete object state of the single cell of exC4. -/
def exC4d : SAOData Int := { use := 3, a := [some 9], n := 1 }

/-- Factory used by the C8 witness: derives the new variable handle from the
target state and the specification. -/
def exVC : VarCreator := fun home spec => (home.vars.length : Int) + spec.vti

/-- Registry holding one variable factory, registered for type identifier
1. -/
def exRegistry : Registry :=
  Registry.addVar { posters := [], varCreators := [] } 1 exVC

/-- Empty target state. -/
def exSpace : Space := { vars := [], constraints := [] }

/-- Variable specification of registered type 1. -/
def exVarSpec : VarSpec := { vti := 1, payload := [0, 10] }

/-- Variable specification of unregistered type 2. -/
def exVarSpec2 : VarSpec := { vti := 2, payload := [] }

/-- Equality poster used by the C9 witness: resolves the argument indices
against the creation-order sequence itself. -/
def exPoster : Poster := fun _ vars spec =>
  { kind := spec.kind
    over := spec.argIdx.map (fun i => vars.getD i.toNat 0)
    payload := spec.payload }

/-- Registry holding the type-1 factory and the eq poster. -/
def exRegistry2 : Registry := Registry.addPoster exRegistry "eq" exPoster

/-- Deserializer session with two created variables. -/
def exDeser : Deserializer :=
  { home := { vars := [10, 20], constraints := [] }
    m := [(0, 10), (1, 20)]
    v := [10, 20] }

/-- Constraint specification referencing the out-of-range position 2. -/
def exBadSpec : ActorSpec := { kind := "eq", argIdx := [0, 2], payload := [] }

/- Helper lemmas about the heap and about reads of range-indexed copies. -/

theorem getD_map_range {α : Type} (f : Nat → α) (dflt : α) {k j : Nat}
    (hj : j < k) : ((List.range k).map f).getD j dflt = f j := by
  simp [List.getD_eq_getElem?_getD, List.getElem?_map, List.getElem?_range hj]

theorem rangeMapGetD_eq_take {α : Type} (l : List α) (dflt : α) {k : Nat}
    (hk : k ≤ l.length) :
    (List.range k).map (fun i => l.getD i dflt) = l.take k := by
  apply List.ext_getElem
  · simp [Nat.min_eq_left hk]
  · intro n h1 h2
    simp only [List.getElem_map, List.getElem_range, List.getElem_take]
    have hn : n < l.length := by
      have : n < k := by simpa using h1
      omega
    simp [List.getD_eq_getElem?_getD, List.getElem?_eq_getElem hn]

theorem Heap.get_lt {T : Type} {h : Heap T} {p : Nat} {d : SAOData T}
    (hp : h.get p = some d) : p < h.cells.length := by
  by_contra hc
  push_neg at hc
  simp [Heap.get, List.getElem?_eq_none hc] at hp

theorem Heap.get_set_live {T : Type} (h : Heap T) {p : Nat}
    (hlt : p < h.cells.length) (d : SAOData T) :
    (h.set p (Cell.live d)).get p = some d := by
  simp [Heap.get, Heap.set, List.getElem?_set_self hlt, Cell.val]

theorem Heap.get_set_freed {T : Type} (h : Heap T) {p : Nat}
    (hlt : p < h.cells.length) : (h.set p Cell.freed).get p = none := by
  simp [Heap.get, Heap.set, List.getElem?_set_self hlt, Cell.val]

theorem Heap.get_set_other {T : Type} (h : Heap T) {p q : Nat} (hne : p ≠ q)
    (c : Cell T) : (h.set p c).get q = h.get q := by
  simp [Heap.get, Heap.set, List.getElem?_set_ne hne]

theorem Heap.get_alloc_self {T : Type} (h : Heap T) (d : SAOData T) :
    (h.alloc d).1.get (h.alloc d).2 = some d := by
  simp [Heap.get, Heap.alloc, List.getElem?_concat_length, Cell.val]

theorem Heap.get_alloc_other {T : Type} (h : Heap T) (d : SAOData T) {p : Nat}
    (hlt : p < h.cells.length) : (h.alloc d).1.get p = h.get p := by
  simp [Heap.get, Heap.alloc, List.getElem?_append, hlt]

theorem Heap.length_set {T : Type} (h : Heap T) (p : Nat) (c : Cell T) :
    (h.set p c).cells.length = h.cells.length := by
  simp [Heap.set]

theorem Heap.subscribeH_live {T : Type} {h : Heap T} {p : Nat} {d : SAOData T}
    (hp : h.get p = some d) :
    h.subscribeH p = some (h.set p (Cell.live { d with use := d.use + 1 })) := by
  simp [Heap.subscribeH, hp]

theorem Heap.releaseH_live_dec {T : Type} {h : Heap T} {p : Nat} {d : SAOData T}
    (hp : h.get p = some d) (hu : 2 ≤ d.use) :
    h.releaseH p = some (h.set p (Cell.live { d with use := d.use - 1 })) := by
  have hne : ¬ (d.use - 1 = 0) := by omega
  simp [Heap.releaseH, hp, hne]

theorem Heap.releaseH_live_zero {T : Type} {h : Heap T} {p : Nat} {d : SAOData T}
    (hp : h.get p = some d) (hu : d.use = 1) :
    h.releaseH p = some (h.set p Cell.freed) := by
  simp [Heap.releaseH, hp, hu]

/-- C7: for every n ≥ 0, constructing a handle over a newly created buffer
of n elements (SharedArray(int n), lines 177-179, which allocates SAO(n),
lines 106-110) and then reading its length (size(), lines 235-239) returns
exactly n. -/
theorem C7_create_size {T : Type} (h : Heap T) (n : Int) (hn : 0 ≤ n) :
    sizeRead (mkSharedArray h n).1 (mkSharedArray h n).2 = some n := by
  simp [mkSharedArray, sizeRead, Heap.get_alloc_self, SAOData.mkSAO]

/-- Witness for C7: creating a three-element array on the empty heap reports
size 3. -/
theorem C7_create_size_witness :
    0 ≤ (3 : Int) ∧
      sizeRead (mkSharedArray (⟨[]⟩ : Heap Int) 3).1
        (mkSharedArray (⟨[]⟩ : Heap Int) 3).2 = some 3 :=
  ⟨by decide, C7_create_size ⟨[]⟩ 3 (by decide)⟩

/-- C3: ensure(i) on a buffer of current length n ≥ 0 with i ≥ n grows the
buffer to length exactly max(2n, i), placement-copy-constructing the
existing n elements, which keep their values and positions, into the new
storage and freeing the old (no destructor is run, second component); with
i < n it changes nothing (SAO::ensure, lines 162-174). -/
theorem C3_ensure {T : Type} (d : SAOData T) (i : Int) (hn : 0 ≤ d.n) :
    (i < d.n → d.ensureRun i = (d, [])) ∧
    (d.n ≤ i →
      (d.ensureRun i).1.n = max (2 * d.n) i ∧
      (d.ensureRun i).1.use = d.use ∧
      (d.ensureRun i).1.a.length = (max (2 * d.n) i).toNat ∧
      (∀ j : Nat, (j : Int) < d.n →
        (d.ensureRun i).1.a.getD j none = d.a.getD j none) ∧
      (d.ensureRun i).2 = []) := by
  constructor
  · intro hi
    have hni : ¬ d.n ≤ i := not_le.mpr hi
    simp [SAOData.ensureRun, hni]
  · intro hi
    refine ⟨?_, ?_, ?_, ?_, ?_⟩
    · simp [SAOData.ensureRun, if_pos hi]
    · simp [SAOData.ensureRun, if_pos hi]
    · simp [SAOData.ensureRun, if_pos hi]
    · intro j hj
      have hdm : d.n ≤ max (2 * d.n) i :=
        le_trans (by omega : d.n ≤ 2 * d.n) (le_max_left _ _)
      have hjk : j < (max (2 * d.n) i).toNat := by omega
      simp only [SAOData.ensureRun, if_pos hi]
      rw [getD_map_range _ _ hjk]
      simp [hj]
    · simp [SAOData.ensureRun, if_pos hi]

/-- Witness for C3 at the two-element object exEnsure and i = 5: growth to
max(4, 5) = 5 with both elements preserved, and ensure(1) a no-op. -/
theorem C3_ensure_witness :
    0 ≤ exEnsure.n ∧
      ((5 < exEnsure.n → exEnsure.ensureRun 5 = (exEnsure, [])) ∧
       (exEnsure.n ≤ 5 →
         (exEnsure.ensureRun 5).1.n = max (2 * exEnsure.n) 5 ∧
         (exEnsure.ensureRun 5).1.use = exEnsure.use ∧
         (exEnsure.ensureRun 5).1.a.length = (max (2 * exEnsure.n) 5).toNat ∧
         (∀ j : Nat, (j : Int) < exEnsure.n →
           (exEnsure.ensureRun 5).1.a.getD j none = exEnsure.a.getD j none) ∧
         (exEnsure.ensureRun 5).2 = [])) :=
  ⟨by decide, C3_ensure exEnsure 5 (by decide)⟩

/-- C2 counterexample: shrinking the one-element object exShrink to zero
elements performs the tight reallocation and sets the length, but the body
of SAO::shrink (lines 144-160) invokes no element destructor on the old
storage (it calls Memory::free directly, unlike ~SAO), so the claim's
destructs-individually clause is false at this input and the claimed
conjunction fails. -/
theorem C2_counterexample :
    ¬ ((exShrink.shrinkRun 0).1.a = [] ∧
       (exShrink.shrinkRun 0).1.n = 0 ∧
       (exShrink.shrinkRun 0).2 = [some 5]) := by decide

/-- C2 (amended): shrink(m) with 0 ≤ m < current length placement-constructs
copies of the first m elements into freshly allocated storage of exactly m
slots (no growth slack), frees the old storage without invoking the element
destructors on it, and leaves the length equal to m and the reference count
unchanged (SAO::shrink, lines 144-160). -/
theorem C2_shrink {T : Type} (d : SAOData T) (m : Int) (h0 : 0 ≤ m)
    (h1 : m < d.n) (hwf : d.a.length = d.n.toNat) :
    (d.shrinkRun m).1.use = d.use ∧
    (d.shrinkRun m).1.a = d.a.take m.toNat ∧
    (d.shrinkRun m).1.a.length = m.toNat ∧
    (d.shrinkRun m).1.n = m ∧
    (d.shrinkRun m).2 = [] := by
  have hk : m.toNat ≤ d.a.length := by omega
  refine ⟨rfl, rangeMapGetD_eq_take d.a none hk, ?_, rfl, rfl⟩
  simp [SAOData.shrinkRun, List.length_take, Nat.min_eq_left hk, hwf]

/-- Witness for C2 at the three-element object exShrinkW and m = 2. -/
theorem C2_shrink_witness :
    (0 ≤ (2 : Int) ∧ (2 : Int) < exShrinkW.n ∧
      exShrinkW.a.length = exShrinkW.n.toNat) ∧
    ((exShrinkW.shrinkRun 2).1.use = exShrinkW.use ∧
     (exShrinkW.shrinkRun 2).1.a = exShrinkW.a.take (2 : Int).toNat ∧
     (exShrinkW.shrinkRun 2).1.a.length = (2 : Int).toNat ∧
     (exShrinkW.shrinkRun 2).1.n = 2 ∧
     (exShrinkW.shrinkRun 2).2 = []) :=
  ⟨⟨by decide, by decide, by decide⟩,
    C2_shrink exShrinkW 2 (by decide) (by decide) (by decide)⟩

theorem subscribe_conclusions {T : Type} {hr h : Heap T} {q : Nat}
    {d : SAOData T} (hq0 : h.get q = some d) (hqr : hr.get q = some d) :
    ∃ h1, hr.subscribeH q = some h1 ∧
      h1.get q = some { d with use := d.use + 1 } ∧
      sizeRead h1 (some q) = some d.n ∧
      elemsRead h1 (some q) = elemsRead h (some q) := by
  refine ⟨hr.set q (Cell.live { d with use := d.use + 1 }),
    Heap.subscribeH_live hqr, ?_, ?_, ?_⟩
  · exact Heap.get_set_live hr (Heap.get_lt hqr) _
  · simp [sizeRead, Heap.get_set_live hr (Heap.get_lt hqr)]
  · simp [elemsRead, Heap.get_set_live hr (Heap.get_lt hqr), hq0]

/-- C1 (amended): update(home, share=true, a) on a handle x that does not
already stake a's live buffer makes both handles the same pointer — hence
they report identical length and identical elements — and increments the
reference count of a's buffer by exactly one, leaving its length and
elements unchanged (SharedArray::update, lines 209-221).  When x already
stakes a's buffer, the release of x's old stake cancels the new stake and
the count is unchanged; see the counterexample. -/
theorem C1_update_share {T : Type} (h : Heap T) (x : Handle) (q : Nat)
    (d : SAOData T) (hq : h.get q = some d)
    (hx : x = none ∨ ∃ p, x = some p ∧ p ≠ q ∧ (h.get p).isSome = true) :
    ∃ h1, update h x true (some q) = some (h1, some q) ∧
      h1.get q = some { d with use := d.use + 1 } ∧
      sizeRead h1 (some q) = some d.n ∧
      elemsRead h1 (some q) = elemsRead h (some q) := by
  rcases hx with hxn | ⟨p, hxp, hpq, hps⟩
  · subst hxn
    obtain ⟨h1, hsub, hg, hs, he2⟩ := subscribe_conclusions hq hq
    exact ⟨h1, by simp [update, hsub], hg, hs, he2⟩
  · subst hxp
    obtain ⟨e, he⟩ := Option.isSome_iff_exists.mp hps
    by_cases hu1 : e.use - 1 = 0
    · have hrel : h.releaseH p = some (h.set p Cell.freed) := by
        simp [Heap.releaseH, he, hu1]
      have hq2 : (h.set p Cell.freed).get q = some d := by
        rw [Heap.get_set_other h hpq]; exact hq
      obtain ⟨h1, hsub, hg, hs, he2⟩ := subscribe_conclusions hq hq2
      exact ⟨h1, by simp [update, hrel, hsub], hg, hs, he2⟩
    · have hrel : h.releaseH p
          = some (h.set p (Cell.live { e with use := e.use - 1 })) := by
        simp [Heap.releaseH, he, hu1]
      have hq2 : (h.set p (Cell.live { e with use := e.use - 1 })).get q
          = some d := by
        rw [Heap.get_set_other h hpq]; exact hq
      obtain ⟨h1, hsub, hg, hs, he2⟩ := subscribe_conclusions hq hq2
      exact ⟨h1, by simp [update, hrel, hsub], hg, hs, he2⟩

/-- C1 counterexample: on the heap exAliased both handle values some-0 stake
the single one-element object, whose reference count is 2.  update with
share=true first releases the caller's stake (count 1) and then subscribes
(count 2): the handles end identical, but the reference count of the shared
buffer is 2, its value before the call, and not 3 as the claim's
increment-by-exactly-one requires at this input. -/
theorem C1_counterexample :
    (update exAliased (some 0) true (some 0)).bind (fun r => r.1.get 0)
        = some { use := 2, a := [some 1], n := 1 } ∧
    ¬ (update exAliased (some 0) true (some 0)).bind (fun r => r.1.get 0)
        = some { use := 3, a := [some 1], n := 1 } := by decide

/-- Witness for C1 on the two-object heap exC1: the handle over object 0
adopts object 1, whose count rises from 1 to 2. -/
theorem C1_update_share_witness :
    (exC1.get 1 = some exC1d ∧
      ((some 0 : Handle) = none ∨
        ∃ p, (some 0 : Handle) = some p ∧ p ≠ 1 ∧ (exC1.get p).isSome = true)) ∧
    (∃ h1, update exC1 (some 0) true (some 1) = some (h1, some 1) ∧
      h1.get 1 = some { exC1d with use := exC1d.use + 1 } ∧
      sizeRead h1 (some 1) = some exC1d.n ∧
      elemsRead h1 (some 1) = elemsRead exC1 (some 1)) :=
  ⟨⟨by decide, Or.inr ⟨0, rfl, by decide, by decide⟩⟩,
    C1_update_share exC1 (some 0) 1 exC1d (by decide)
      (Or.inr ⟨0, rfl, by decide, by decide⟩)⟩

/-- C10: self-assignment is a no-op: the assignment operator's address test
(lines 196-207) short-circuits the whole body, so the heap — and with it the
buffer pointer, the reference count, the length and the elements — and the
handle are unchanged; update (lines 209-221) performs no such test, and on a
sole-stake handle updated from itself it releases and destroys the buffer
before re-subscribing, which is undefined behaviour (modelled as none). -/
theorem C10_self_assign :
    (∀ (T : Type) (h : Heap T) (x : Handle), assign h x x true = some (h, x)) ∧
    update exSole (some 0) true (some 0) = none := by
  constructor
  · intro T h x; simp [assign]
  · decide

/-- Witness instantiating the universal part of C10 at a concrete heap and
handle. -/
theorem C10_self_assign_witness :
    assign exAliased (some 0) (some 0) true = some (exAliased, some 0) :=
  C10_self_assign.1 Int exAliased (some 0)

theorem releaseN_live {T : Type} (p : Nat) :
    ∀ (j : Nat) (h : Heap T) (d : SAOData T), h.get p = some d → j < d.use →
      ∃ h1, releaseN h p j = some h1 ∧ h1.get p = some { d with use := d.use - j }
  | 0, h, d, hp, _ => ⟨h, rfl, by simpa using hp⟩
  | j + 1, h, d, hp, hj => by
    have hu2 : 2 ≤ d.use := by omega
    have hrel := Heap.releaseH_live_dec hp hu2
    have hq2 : (h.set p (Cell.live { d with use := d.use - 1 })).get p
        = some { d with use := d.use - 1 } :=
      Heap.get_set_live h (Heap.get_lt hp) _
    obtain ⟨h1, hN, hg⟩ :=
      releaseN_live p j _ _ hq2 (by show j < d.use - 1; omega)
    refine ⟨h1, ?_, ?_⟩
    · simp [releaseN, hrel, hN]
    · simpa [Nat.sub_sub, Nat.add_comm] using hg

theorem releaseN_dead {T : Type} (p : Nat) :
    ∀ (u : Nat) (h : Heap T) (d : SAOData T), h.get p = some d → d.use = u + 1 →
      ∃ h2, releaseN h p (u + 1) = some h2 ∧
        h2.cells[p]? = some Cell.freed ∧ h2.get p = none
  | 0, h, d, hp, hu => by
    have hrel := Heap.releaseH_live_zero hp hu
    refine ⟨h.set p Cell.freed, ?_, ?_, ?_⟩
    · simp [releaseN, hrel]
    · simp [Heap.set, List.getElem?_set_self (Heap.get_lt hp)]
    · exact Heap.get_set_freed h (Heap.get_lt hp)
  | u + 1, h, d, hp, hu => by
    have hu2 : 2 ≤ d.use := by omega
    have hrel := Heap.releaseH_live_dec hp hu2
    have hq2 : (h.set p (Cell.live { d with use := d.use - 1 })).get p
        = some { d with use := d.use - 1 } :=
      Heap.get_set_live h (Heap.get_lt hp) _
    obtain ⟨h2, hN, hc, hg⟩ :=
      releaseN_dead p u _ _ hq2 (by show d.use - 1 = u + 1; omega)
    refine ⟨h2, ?_, hc, hg⟩
    show (h.releaseH p).bind (fun h1 => releaseN h1 p (u + 1)) = some h2
    rw [hrel]
    simpa using hN

/-- C4: after k ≥ 1 handles stake the same object, so that its reference
count is k, destroying any j < k of them leaves the object alive with its
elements intact and count k - j (so the buffer is never destroyed before the
count reaches 0), and destroying the k-th frees the cell — the object is
destroyed exactly once, at the release on which the count transitions to 0
(SAO::subscribe/release, lines 131-142; ~SharedArray, lines 189-194). -/
theorem C4_release {T : Type} (k : Nat) (h : Heap T) (p : Nat)
    (d : SAOData T) (hk : 1 ≤ k) (hp : h.get p = some d) (hu : d.use = k) :
    (∀ j, j < k → ∃ h1, releaseN h p j = some h1 ∧
        h1.get p = some { d with use := k - j }) ∧
    (∃ h2, releaseN h p k = some h2 ∧ h2.cells[p]? = some Cell.freed ∧
        h2.get p = none) := by
  constructor
  · intro j hj
    obtain ⟨h1, hN, hg⟩ := releaseN_live p j h d hp (by omega)
    rw [hu] at hg
    exact ⟨h1, hN, hg⟩
  · obtain ⟨u, rfl⟩ : ∃ u, k = u + 1 := ⟨k - 1, by omega⟩
    exact releaseN_dead p u h d hp (by omega)

/-- Witness for C4 at k = 3 on the heap exC4: two releases leave the object
alive with counts 2 and 1, the third frees it. -/
theorem C4_release_witness :
    (1 ≤ 3 ∧ exC4.get 0 = some exC4d ∧ exC4d.use = 3) ∧
    ((∀ j, j < 3 → ∃ h1, releaseN exC4 0 j = some h1 ∧
        h1.get 0 = some { exC4d with use := 3 - j }) ∧
     (∃ h2, releaseN exC4 0 3 = some h2 ∧ h2.cells[0]? = some Cell.freed ∧
        h2.get 0 = none)) :=
  ⟨⟨by decide, by decide, by decide⟩,
    C4_release 3 exC4 0 exC4d (by decide) (by decide) (by decide)⟩

/-- C5: starting from a handle over the live object at p, sharing it via the
copy constructor and then diverging the copy via update(home, share=false,
source) leaves the original handle's length and elements unchanged — its
object keeps exactly its old state — while the updated handle ends at a
fresh independent object of reference count 1 whose elements equal the
source's (SharedArray::update, lines 209-221; SAO::copy, lines 112-119). -/
theorem C5_diverge {T : Type} (h : Heap T) (p : Nat) (d : SAOData T)
    (hp : h.get p = some d) (hu : 1 ≤ d.use) (hwf : d.a.length = d.n.toNat) :
    ∃ h1 h2,
      copyCtor h (some p) = some (h1, some p) ∧
      update h1 (some p) false (some p) = some (h2, some h.cells.length) ∧
      h.cells.length ≠ p ∧
      h2.get p = some d ∧
      sizeRead h2 (some p) = sizeRead h (some p) ∧
      elemsRead h2 (some p) = elemsRead h (some p) ∧
      h2.get h.cells.length = some { use := 1, a := d.a, n := d.n } := by
  have hlt : p < h.cells.length := Heap.get_lt hp
  have hsub : h.subscribeH p
      = some (h.set p (Cell.live { d with use := d.use + 1 })) :=
    Heap.subscribeH_live hp
  set h1 : Heap T := h.set p (Cell.live { d with use := d.use + 1 }) with hh1
  have hg1 : h1.get p = some { d with use := d.use + 1 } :=
    Heap.get_set_live h hlt _
  have hrel : h1.releaseH p = some (h1.set p (Cell.live d)) := by
    have h2le : 2 ≤ ({ d with use := d.use + 1 } : SAOData T).use := by
      show 2 ≤ d.use + 1; omega
    have hr0 := Heap.releaseH_live_dec hg1 h2le
    simpa using hr0
  set hr : Heap T := h1.set p (Cell.live d) with hhr
  have hlt1 : p < h1.cells.length := by
    rw [hh1, Heap.length_set]; exact hlt
  have hgr : hr.get p = some d := Heap.get_set_live h1 hlt1 _
  have hlen : hr.cells.length = h.cells.length := by
    rw [hhr, Heap.length_set, hh1, Heap.length_set]
  have hltr : p < hr.cells.length := by rw [hlen]; exact hlt
  have hcopy : d.copyFn = ({ use := 1, a := d.a, n := d.n } : SAOData T) := by
    have ha : (List.range d.n.toNat).map (fun i => d.a.getD i none) = d.a := by
      rw [← hwf, rangeMapGetD_eq_take d.a none (le_refl _), List.take_length]
    unfold SAOData.copyFn
    rw [ha]
  refine ⟨h1, (hr.alloc d.copyFn).1, ?_, ?_, Nat.ne_of_gt hlt, ?_, ?_, ?_, ?_⟩
  · simp [copyCtor, hsub, hh1]
  · have halloc2 : (hr.alloc d.copyFn).2 = h.cells.length := by
      rw [← hlen]; rfl
    simp [update, hrel, hgr, ← hhr, halloc2]
  · rw [Heap.get_alloc_other hr d.copyFn hltr]; exact hgr
  · simp [sizeRead, Heap.get_alloc_other hr d.copyFn hltr, hgr, hp]
  · simp [elemsRead, Heap.get_alloc_other hr d.copyFn hltr, hgr, hp]
  · have hself : (hr.alloc d.copyFn).1.get hr.cells.length = some d.copyFn :=
      Heap.get_alloc_self hr d.copyFn
    rw [hlen] at hself
    rw [hself, hcopy]

/-- Witness for C5 on the sole-stake heap exSole. -/
theorem C5_diverge_witness :
    (exSole.get 0 = some exSoled ∧ 1 ≤ exSoled.use ∧
      exSoled.a.length = exSoled.n.toNat) ∧
    (∃ h1 h2,
      copyCtor exSole (some 0) = some (h1, some 0) ∧
      update h1 (some 0) false (some 0) = some (h2, some exSole.cells.length) ∧
      exSole.cells.length ≠ 0 ∧
      h2.get 0 = some exSoled ∧
      sizeRead h2 (some 0) = sizeRead exSole (some 0) ∧
      elemsRead h2 (some 0) = elemsRead exSole (some 0) ∧
      h2.get exSole.cells.length
        = some { use := 1, a := exSoled.a, n := exSoled.n }) :=
  ⟨⟨by decide, by decide, by decide⟩,
    C5_diverge exSole 0 exSoled (by decide) (by decide) (by decide)⟩

/-- C6: size(0) releases the handle's stake — exactly the handle
destructor's release — and leaves the handle empty, after which size()
returns 0 on any heap; size(n) for n ≠ 0 on a handle whose buffer is live
overwrites only the stored length metadata, leaving the storage and its
elements, the reference count and the heap layout unchanged, with no
reallocation (SharedArray::size(int), lines 241-251; size(void), lines
235-239). -/
theorem C6_size_set {T : Type} (h : Heap T) (x : Handle) (n : Int) (p : Nat)
    (d : SAOData T) (hn : n ≠ 0) (hp : h.get p = some d) :
    sizeSet h x 0 = (destructHandle h x).map (fun h1 => (h1, (none : Handle))) ∧
    (∀ h1 : Heap T, sizeRead h1 (none : Handle) = some 0) ∧
    sizeSet h (some p) n = some (h.set p (Cell.live { d with n := n }), some p) ∧
    (h.set p (Cell.live { d with n := n })).get p = some { d with n := n } ∧
    (h.set p (Cell.live { d with n := n })).cells.length = h.cells.length := by
  refine ⟨?_, ?_, ?_, ?_, ?_⟩
  · cases x with
    | none => simp [sizeSet, destructHandle]
    | some q => simp [sizeSet, destructHandle]
  · intro h1; simp [sizeRead]
  · simp [sizeSet, hn, hp]
  · exact Heap.get_set_live h (Heap.get_lt hp) _
  · exact Heap.length_set h p _

/-- Witness for C6 on the sole-stake heap exSole with n = 5. -/
theorem C6_size_set_witness :
    ((5 : Int) ≠ 0 ∧ exSole.get 0 = some exSoled) ∧
    (sizeSet exSole (some 0) 0
        = (destructHandle exSole (some 0)).map (fun h1 => (h1, (none : Handle))) ∧
     (∀ h1 : Heap Int, sizeRead h1 (none : Handle) = some 0) ∧
     sizeSet exSole (some 0) 5
        = some (exSole.set 0 (Cell.live { exSoled with n := 5 }), some 0) ∧
     (exSole.set 0 (Cell.live { exSoled with n := 5 })).get 0
        = some { exSoled with n := 5 } ∧
     (exSole.set 0 (Cell.live { exSoled with n := 5 })).cells.length
        = exSole.cells.length) :=
  ⟨⟨by decide, by decide⟩,
    C6_size_set exSole (some 0) 5 0 exSoled (by decide) (by decide)⟩

/-- C8: for every registry state and variable specification, createVar
invokes exactly the factory registered for the specification's variable
type identifier and returns that factory's result on the target state and
the specification, and fails with UnknownVariableType when no factory is
registered for that identifier (Registry::createVar, declaration lines
361-362, modelled from the spec; Registry::add, lines 369-380). -/
theorem C8_createVar (r : Registry) (home : Space) (spec : VarSpec) :
    (∀ f : VarCreator, r.varCreators.lookup spec.vti = some f →
        r.createVar home spec = Except.ok (f home spec)) ∧
    (r.varCreators.lookup spec.vti = none →
        r.createVar home spec = Except.error DError.unknownVariableType) := by
  constructor
  · intro f hf; simp [Registry.createVar, hf]
  · intro hf; simp [Registry.createVar, hf]

/-- Witness for C8: on a registry with one factory registered for type 1,
createVar returns that factory's result for a type-1 specification and
fails with UnknownVariableType for a type-2 specification. -/
theorem C8_createVar_witness :
    (exRegistry.varCreators.lookup exVarSpec.vti = some exVC ∧
      exRegistry.createVar exSpace exVarSpec
        = Except.ok (exVC exSpace exVarSpec)) ∧
    (exRegistry.varCreators.lookup exVarSpec2.vti = none ∧
      exRegistry.createVar exSpace exVarSpec2
        = Except.error DError.unknownVariableType) :=
  ⟨⟨rfl, (C8_createVar exRegistry exSpace exVarSpec).1 exVC rfl⟩,
   ⟨rfl, (C8_createVar exRegistry exSpace exVarSpec2).2 rfl⟩⟩

/-- C9: postConstraint never creates variables — on success the
creation-order sequence, the identifier map and the target state's
variables are unchanged — and whenever some argument index is not a valid
position in the creation-order sequence it fails with
UndefinedVariableReference, so no new constraint reaches the target state
(Deserializer::post, declaration lines 406-408, modelled from the spec;
Deserializer state, lines 386-393). -/
theorem C9_post (ds : Deserializer) (r : Registry) (spec : ActorSpec) :
    (∀ ds1, ds.postA r spec = Except.ok ds1 →
        ds1.v = ds.v ∧ ds1.m = ds.m ∧ ds1.home.vars = ds.home.vars) ∧
    ((∃ i, i ∈ spec.argIdx ∧ ¬ (0 ≤ i ∧ i < (ds.v.length : Int))) →
        ds.postA r spec = Except.error DError.undefinedVariableReference) := by
  constructor
  · intro ds1 hok
    by_cases hall : spec.argIdx.all
        (fun i => decide (0 ≤ i) && decide (i < (ds.v.length : Int))) = true
    · rw [Deserializer.postA, if_pos hall, Registry.postC] at hok
      cases hlk : r.posters.lookup spec.kind with
      | none => rw [hlk] at hok; simp [Except.map] at hok
      | some po =>
        rw [hlk] at hok
        simp only [Except.map] at hok
        cases hok
        exact ⟨rfl, rfl, rfl⟩
    · rw [Deserializer.postA, if_neg hall] at hok
      simp at hok
  · rintro ⟨i, hmem, hbad⟩
    have hall : ¬ (spec.argIdx.all
        (fun i => decide (0 ≤ i) && decide (i < (ds.v.length : Int))) = true) := by
      intro hcontra
      have hi := List.all_eq_true.mp hcontra i hmem
      simp only [Bool.and_eq_true, decide_eq_true_eq] at hi
      exact hbad hi
    rw [Deserializer.postA, if_neg hall]

/-- Witness for C9: a session with two created variables rejects the
constraint specification eq(0, 2) with UndefinedVariableReference. -/
theorem C9_post_witness :
    (∃ i, i ∈ exBadSpec.argIdx ∧ ¬ (0 ≤ i ∧ i < (exDeser.v.length : Int))) ∧
    exDeser.postA exRegistry2 exBadSpec
      = Except.error DError.undefinedVariableReference :=
  ⟨⟨2, by decide, by decide⟩,
    (C9_post exDeser exRegistry2 exBadSpec).2 ⟨2, by decide, by decide⟩⟩

end Gecode
